import Mathlib

/-!
Verification of the branch retirement decision pipeline of
`cleanup_stale_branches.py` (github-branch-cleaner).

The script shells out to git.  We embed each external call's result as a
field of a `Facade` record: an exit code together with the captured
standard output.  The pure decision logic of the script — configuration
parsing, the guard chain of `clean`, the printed status lines, and the
process exit code — is translated function by function from the Python
source; Lean definitions keep the Python names.
-/

set_option linter.unusedVariables false

namespace BranchCleaner

/-- The whitespace characters Python's `str.strip` (no argument) and the
regex class `\s` remove/match, restricted to ASCII: space, tab, newline,
carriage return, vertical tab, form feed. -/
def isSpaceRe (c : Char) : Bool :=
  c == ' ' || c == '\t' || c == '\n' || c == '\r' ||
    c == Char.ofNat 11 || c == Char.ofNat 12

/-- Embeds Python `str.strip()`: drop whitespace from both ends.  (Defined
over the character list so that proofs can evaluate it.) -/
def stripStr (s : String) : String :=
  String.mk (((s.data.dropWhile isSpaceRe).reverse.dropWhile isSpaceRe).reverse)

/-- Embeds Python `str.lower()` (ASCII range). -/
def lowerStr (s : String) : String :=
  String.mk (s.data.map Char.toLower)

/-- Split a character list at every occurrence of `sep`; an empty input
yields one empty piece, as Python's `"".split(sep)` does. -/
def splitCharAux (sep : Char) : List Char → List Char → List (List Char)
  | [], acc => [acc.reverse]
  | c :: cs, acc =>
    if c == sep then acc.reverse :: splitCharAux sep cs []
    else splitCharAux sep cs (c :: acc)

/-- Embeds Python `str.split(sep)` for a one-character separator. -/
def splitStr (sep : Char) (s : String) : List String :=
  (splitCharAux sep s.data []).map String.mk

/-- Embeds Python `str.startswith(p)`. -/
def startsWithStr (s p : String) : Bool :=
  p.data.isPrefixOf s.data

/-- Embeds the Python slice `s[:n]`. -/
def takeStr (s : String) (n : Nat) : String :=
  String.mk (s.data.take n)

/-- Result of one external (subprocess) invocation: its exit code and its
captured standard output, as consumed by the Python `run` helper. -/
structure RunResult where
  exitcode : Int
  stdout : String
  deriving DecidableEq

/-- Embeds `run(cmd, check=True)` (lines 57-61): raises `RuntimeError` when
the exit code is nonzero, otherwise returns the stripped standard output. -/
def run (r : RunResult) : Except String String :=
  if r.exitcode != 0 then .error "Command failed" else .ok (stripStr r.stdout)

/-- Embeds `run(cmd, check=False)`: always returns the stripped standard
output, even when the command failed. -/
def runNoCheck (r : RunResult) : String := stripStr r.stdout

/-- `needle` occurs as a contiguous substring of the character list. Embeds
Python's `in` test on strings (used for `"fatal:" not in out`). -/
def listContainsSub (needle : List Char) : List Char → Bool
  | [] => needle.isEmpty
  | c :: rest => needle.isPrefixOf (c :: rest) || listContainsSub needle rest

/-- Embeds the set comprehension used for `PROTECTED` and `CRITICAL`
(lines 21-37): split the environment string on commas, drop entries that
strip to empty, strip and lowercase the rest.  Membership in the resulting
list is the embedding of Python set membership. -/
def parseBranchSet (s : String) : List String :=
  ((splitStr ',' s).filter (fun b => stripStr b != "")).map (fun b => lowerStr (stripStr b))

/-- Embeds the comprehension `{p.strip().lower() for p in protect if p.strip()}`
on line 171 for the user-supplied `--protect` options. -/
def parseProtectArgs (ps : List String) : List String :=
  (ps.filter (fun p => stripStr p != "")).map (fun p => lowerStr (stripStr p))

/-- The protected set assembled on line 171: the environment-configured
`PROTECTED` set united with the user-supplied `--protect` additions. -/
def protectedForRun (envProt : String) (protect : List String) : List String :=
  parseBranchSet envProt ++ parseProtectArgs protect

/-- The critical set assembled on line 172: exactly the
environment-configured `CRITICAL` set, with no user additions. -/
def criticalForRun (envCrit : String) : List String :=
  parseBranchSet envCrit

/-- The git-facing state of one program run: one field per distinct external
git invocation the script can make, holding that call's result. -/
structure Facade where
  /-- The `--repo` path exists on disk (checked by the CLI layer, `exists=True`). -/
  repoExists : Bool
  /-- `path.is_dir()` in `ensure_git_repo` (line 65). -/
  repoIsDir : Bool
  /-- `(path / ".git").is_dir()` in `ensure_git_repo` (line 67). -/
  repoHasDotGit : Bool
  /-- Result of `git branch --show-current` (line 72). -/
  currentBranch : RunResult
  /-- Result of `git for-each-ref --format=%(refname:short) refs/heads` (line 76). -/
  localBranchesOut : RunResult
  /-- Result of `git rev-parse --verify --quiet <ref>` (line 189). -/
  baseVerify : String → RunResult
  /-- Result of `git rev-parse --abbrev-ref <branch>@{upstream}` (line 81). -/
  upstreamOut : String → RunResult
  /-- Result of `git rev-parse <branch>` (line 103). -/
  tipShaOut : String → RunResult
  /-- Exit code of `git merge-base --is-ancestor <commit> <base>` (line 108). -/
  mergeBaseRc : String → String → Int
  /-- The commit messages reachable from a ref, in log order: the history
  that `git log <base> --grep=...` (line 125) searches. -/
  logMessages : String → List String
  /-- Result of `git ls-remote --heads <remote> <branch>` (line 90). -/
  lsRemoteOut : String → String → RunResult
  /-- Exit code of `git branch -d <branch>` (or `-D` when forced, line 95);
  second argument is `force`. -/
  deleteRc : String → Bool → Int

/-- Embeds `current_branch` (lines 71-72). -/
def current_branch (f : Facade) : Except String String :=
  run f.currentBranch

/-- Embeds `local_branches` (lines 75-77): split the output into lines and
drop empty ones. -/
def local_branches (f : Facade) : Except String (List String) :=
  match run f.localBranchesOut with
  | .error e => .error e
  | .ok out => .ok ((splitStr '\n' out).filter (fun b => b != ""))

/-- Embeds `upstream_for` (lines 80-85): the stripped output of a
`check=False` call, mapped to `none` when empty or containing `"fatal:"`. -/
def upstream_for (f : Facade) (branch : String) : Option String :=
  let out := runNoCheck (f.upstreamOut branch)
  if out != "" && !(listContainsSub "fatal:".data out.data) then some out else none

/-- Embeds `remote_branch_exists` (lines 88-91): true iff the `check=False`
`ls-remote` call produced nonempty output — a failed command produces empty
output and is indistinguishable from an absent branch. -/
def remote_branch_exists (f : Facade) (remote branch : String) : Bool :=
  stripStr (runNoCheck (f.lsRemoteOut remote branch)) != ""

/-- Embeds `tip_sha` (lines 102-103): a `check=True` call, so a failure is
a raised `RuntimeError`. -/
def tip_sha (f : Facade) (branch : String) : Except String String :=
  run (f.tipShaOut branch)

/-- Embeds `commit_in_base` (lines 106-113): true iff
`git merge-base --is-ancestor` exits with code 0. -/
def commit_in_base (f : Facade) (commit base : String) : Bool :=
  f.mergeBaseRc commit base == 0

/-- Embeds `issue_id_from_branch` (lines 116-118): the Python regex
`^(\d+)[-_].+` — one or more leading digits, a `-` or `_` separator, then
at least one further (non-newline) character; returns the digit prefix. -/
def issue_id_from_branch (branch : String) : Option String :=
  let ds := branch.data.takeWhile Char.isDigit
  let rest := branch.data.dropWhile Char.isDigit
  match ds, rest with
  | [], _ => none
  | _ :: _, sep :: c :: _ =>
    if (sep == '-' || sep == '_') && c != '\n' then some (String.mk ds) else none
  | _ :: _, _ => none

/-- The six closure verbs of the grep pattern on line 123. -/
def closureVerbs : List (List Char) :=
  ["closes".data, "closed".data, "fixes".data, "fixed".data,
   "resolves".data, "resolved".data]

/-- The word class `\w` (for the trailing `\b` boundary of the pattern). -/
def isWordChar (c : Char) : Bool := c.isAlphanum || c == '_'

/-- Case-insensitively strip `pat` from the front of `s`, returning the
remainder on success. -/
def stripPrefixCI : List Char → List Char → Option (List Char)
  | [], s => some s
  | _ :: _, [] => none
  | p :: ps, c :: cs => if p.toLower == c.toLower then stripPrefixCI ps cs else none

/-- After a closure verb: match `\s+#?<id>\b` — at least one whitespace
character, an optional `#`, the exact issue-id digits, then a word
boundary. -/
def matchAfterVerb (idc : List Char) (s : List Char) : Bool :=
  let ws := s.takeWhile isSpaceRe
  let rest := s.dropWhile isSpaceRe
  if ws.isEmpty then false
  else
    let rest2 := match rest with
      | '#' :: r => r
      | r => r
    idc.isPrefixOf rest2 &&
      (match rest2.drop idc.length with
       | [] => true
       | c :: _ => !(isWordChar c))

/-- The closure pattern anchored at the head of `s`: one of the six verbs
(case-insensitively), then `\s+#?<id>\b`. -/
def matchClosureAt (idc : List Char) (s : List Char) : Bool :=
  closureVerbs.any (fun v =>
    match stripPrefixCI v s with
    | some r => matchAfterVerb idc r
    | none => false)

/-- Unanchored search: the closure pattern matches somewhere in `s`. -/
def searchClosure (idc : List Char) : List Char → Bool
  | [] => false
  | c :: rest => matchClosureAt idc (c :: rest) || searchClosure idc rest

/-- Embeds `base_has_issue_closure` (lines 121-128): the
`git log <base> --regexp-ignore-case --grep=<pattern>` call is modelled as
an existential over the commit messages reachable from `base` — its output
is nonempty iff some reachable commit message matches the pattern
`(closes|closed|fixes|fixed|resolves|resolved)\s+#?<id>\b`,
case-insensitively. -/
def base_has_issue_closure (f : Facade) (base issue_id : String) : Bool :=
  (f.logMessages base).any (fun msg => searchClosure issue_id.data msg.data)

/-- The action of a classification: the spec's Skip / Keep / Delete. -/
inductive BAction where
  | Skip
  | Keep
  | Delete
  deriving DecidableEq

/-- A branch's classification: the action together with the reason string
printed in parentheses on the branch's status line. -/
structure Classif where
  action : BAction
  reason : String
  deriving DecidableEq

/-- The per-run configuration assembled by `clean` before the branch loop:
command-line flags plus the resolved protected and critical sets. -/
structure Cfg where
  remote : String
  baseRef : String
  dryRun : Bool
  force : Bool
  checkUpstreamMissing : Bool
  checkRemoteMissing : Bool
  checkIssueClosure : Bool
  protectedSet : List String
  criticalSet : List String

/-- The upstream condition of lines 207-208: the branch has an upstream and
it starts with `<remote>/`.  Guard 4 skips the branch when
`check_upstream_missing` is set and this is false. -/
def upstream_ok (f : Facade) (remote branch : String) : Bool :=
  match upstream_for f branch with
  | none => false
  | some up => startsWithStr up (remote ++ "/")

/-- The issue-closure guard of lines 212-219, as the optional classification
it yields: `none` when the guard is disabled or lets the branch through. -/
def issueGuard (cfg : Cfg) (f : Facade) (b : String) : Option Classif :=
  if cfg.checkIssueClosure then
    match issue_id_from_branch b with
    | none => some ⟨.Skip, "no issue id prefix for closure check"⟩
    | some i =>
      if base_has_issue_closure f cfg.baseRef i then none
      else some ⟨.Keep, "no issue-closure marker on " ++ cfg.baseRef ++ " for #" ++ i⟩
  else none

/-- Guards 6-8 of the loop body (lines 221-231): resolve the tip (a
`check=True` call whose failure aborts), the ancestry test, the optional
remote-presence test, and the deletion default. -/
def tailGuards (cfg : Cfg) (f : Facade) (b : String) : Except String Classif :=
  match tip_sha f b with
  | .error e => .error e
  | .ok tip =>
    if !(commit_in_base f tip cfg.baseRef) then
      .ok ⟨.Keep, "tip " ++ takeStr tip 8 ++ " NOT in " ++ cfg.baseRef⟩
    else if cfg.checkRemoteMissing && remote_branch_exists f cfg.remote b then
      .ok ⟨.Keep, "exists on " ++ cfg.remote⟩
    else
      .ok ⟨.Delete, "tip " ++ takeStr tip 8 ++ " is in " ++ cfg.baseRef⟩

/-- Guards 2-8 of the loop body (lines 199-231): everything after the
current-branch guard.  The protected and critical guards compare the
lowercased name; the reason strings are the printed ones. -/
def classifyRest (cfg : Cfg) (f : Facade) (b : String) : Except String Classif :=
  if lowerStr b ∈ cfg.protectedSet then .ok ⟨.Skip, "protected"⟩
  else if lowerStr b ∈ cfg.criticalSet then .ok ⟨.Skip, "critical"⟩
  else if cfg.checkUpstreamMissing && !(upstream_ok f cfg.remote b) then
    .ok ⟨.Skip, "local-only or non-" ++ cfg.remote ++ " upstream"⟩
  else
    match issueGuard cfg f b with
    | some c => .ok c
    | none => tailGuards cfg f b

/-- The full classification of one branch (loop body, lines 193-231): the
current-branch guard `if b == cur` — a verbatim, case-sensitive string
comparison — followed by the remaining guards. -/
def classify (cfg : Cfg) (f : Facade) (cur b : String) : Except String Classif :=
  if b = cur then .ok ⟨.Skip, "current"⟩ else classifyRest cfg f b

/-- What processing one branch prints and whether it aborted the run. -/
structure StepOut where
  lines : List String
  aborted : Bool
  deriving DecidableEq

/-- Embeds `delete_branch` (lines 94-99): in dry-run mode print the
would-be command; otherwise run it (`check=True` — a nonzero exit aborts).
Returns the printed lines and the aborted flag. -/
def delete_branch (f : Facade) (branch : String) (force dry_run : Bool) :
    List String × Bool :=
  if dry_run then
    (["[DRY] git branch " ++ (if force then "-D" else "-d") ++ " " ++ branch], false)
  else if f.deleteRc branch force == 0 then ([], false)
  else ([], true)

/-- One iteration of the branch loop: the status line(s) printed for the
branch and whether an uncaught error aborted the run.  The `[DEL ]` line is
printed before `delete_branch` runs, so it survives a failed deletion. -/
def stepBranch (cfg : Cfg) (f : Facade) (cur b : String) : StepOut :=
  match classify cfg f cur b with
  | .error _ => ⟨[], true⟩
  | .ok c =>
    match c.action with
    | .Skip => ⟨["[SKIP] " ++ b ++ " (" ++ c.reason ++ ")"], false⟩
    | .Keep => ⟨["[KEEP] " ++ b ++ " (" ++ c.reason ++ ")"], false⟩
    | .Delete =>
      let d := delete_branch f b cfg.force cfg.dryRun
      ⟨("[DEL ] " ++ b ++ " (" ++ c.reason ++ ")") :: d.1, d.2⟩

/-- Process exit code paired with the standard-output lines. -/
structure Outcome where
  exitCode : Nat
  out : List String
  deriving DecidableEq

/-- The branch loop of lines 193-231: concatenate each branch's lines; an
abort (uncaught `RuntimeError`, Python exit status 1) stops the loop,
keeping the lines already printed. -/
def cleanLoop (cfg : Cfg) (f : Facade) (cur : String) : List String → Outcome
  | [] => ⟨0, []⟩
  | b :: rest =>
    let st := stepBranch cfg f cur b
    if st.aborted then ⟨1, st.lines⟩
    else
      let o := cleanLoop cfg f cur rest
      ⟨o.exitCode, st.lines ++ o.out⟩

/-- The effective environment configuration: the strings the three
`os.getenv` calls yield (the given value, or the hard-coded default when
the variable is unset). -/
structure Env where
  protectedEnv : String
  criticalEnv : String
  baseEnv : String

/-- The command-line arguments of `clean` (lines 131-165); `base = none`
means the option was omitted and the environment default applies. -/
structure Args where
  base : Option String
  remote : String
  dryRun : Bool
  force : Bool
  fetch : Bool
  checkUpstreamMissing : Bool
  checkRemoteMissing : Bool
  checkIssueClosure : Bool
  protect : List String

/-- The whole program run, import-time validation included:
* empty `PROTECTED`, `CRITICAL` or base setting → module-level
  `RuntimeError` (lines 41-54), uncaught, Python exit status 1;
* missing `--repo` path → CLI usage error, exit status 2;
* `ensure_git_repo` failure, a failed current-branch or branch-listing
  call, or an unresolved base ref → caught / `typer.Exit`, exit status 2
  (lines 183-191);
* then the branch loop; `fetch` is `check=False` and has no observable
  effect on the model.  Output lines are the stdout status lines. -/
def programRun (env : Env) (a : Args) (f : Facade) : Outcome :=
  if parseBranchSet env.protectedEnv = [] then ⟨1, []⟩
  else if parseBranchSet env.criticalEnv = [] then ⟨1, []⟩
  else if stripStr env.baseEnv = "" then ⟨1, []⟩
  else if !f.repoExists then ⟨2, []⟩
  else if !(f.repoIsDir && f.repoHasDotGit) then ⟨2, []⟩
  else
    match current_branch f with
    | .error _ => ⟨2, []⟩
    | .ok cur =>
      match local_branches f with
      | .error _ => ⟨2, []⟩
      | .ok branches =>
        let baseRef := a.base.getD (stripStr env.baseEnv)
        if runNoCheck (f.baseVerify baseRef) = "" then ⟨2, []⟩
        else
          let cfg : Cfg :=
            ⟨a.remote, baseRef, a.dryRun, a.force,
             a.checkUpstreamMissing, a.checkRemoteMissing, a.checkIssueClosure,
             protectedForRun env.protectedEnv a.protect,
             criticalForRun env.criticalEnv⟩
          cleanLoop cfg f cur branches

/-! ## Concrete fixtures -/

/-- A small healthy repository: current branch `main`, one feature branch
whose tip is contained in `dev`, remote lookups failing (exit 1, empty
output). -/
def sampleFacade : Facade :=
  { repoExists := true, repoIsDir := true, repoHasDotGit := true,
    currentBranch := ⟨0, "main"⟩,
    localBranchesOut := ⟨0, "main\nfeature-x"⟩,
    baseVerify := fun _ => ⟨0, "0123abcd"⟩,
    upstreamOut := fun _ => ⟨0, "origin/feature-x"⟩,
    tipShaOut := fun _ => ⟨0, "deadbeef12345678"⟩,
    mergeBaseRc := fun _ _ => 0,
    logMessages := fun _ => ["Fixes #42 in the parser"],
    lsRemoteOut := fun _ _ => ⟨1, ""⟩,
    deleteRc := fun _ _ => 0 }

/-- A facade differing from `sampleFacade` in the oracles the early guards
never consult: the tip cannot be resolved and nothing is contained in base. -/
def sampleFacadeAlt : Facade :=
  { sampleFacade with
    tipShaOut := fun _ => ⟨128, ""⟩,
    mergeBaseRc := fun _ _ => 1,
    logMessages := fun _ => [] }

/-- Defaults of every `clean` option. -/
def sampleArgs : Args :=
  { base := none, remote := "origin", dryRun := false, force := false, fetch := false,
    checkUpstreamMissing := false, checkRemoteMissing := false, checkIssueClosure := false,
    protect := [] }

/-- The three environment defaults hard-coded in the script. -/
def sampleEnv : Env :=
  { protectedEnv := "main,master,develop,dev,release,staging,production",
    criticalEnv := "master,dev", baseEnv := "dev" }

/-- The configuration `clean` assembles from `sampleEnv` and `sampleArgs`. -/
def sampleCfg : Cfg :=
  ⟨"origin", "dev", false, false, false, false, false,
   ["main", "master", "develop", "dev", "release", "staging", "production"],
   ["master", "dev"]⟩

deriving instance DecidableEq for Except

/-- An environment whose protected-branches setting resolves to the empty
set (only commas and blanks). -/
def envEmptyProt : Env :=
  { protectedEnv := " , ", criticalEnv := "master,dev", baseEnv := "dev" }

/-- `sampleFacade` with a missing repository path. -/
def facadeNoRepo : Facade := { sampleFacade with repoExists := false }

/-- `sampleFacade` with a failing current-branch call. -/
def facadeCurFail : Facade := { sampleFacade with currentBranch := ⟨128, ""⟩ }

/-- `sampleFacade` with an unresolvable base ref (`rev-parse --verify
--quiet` fails and prints nothing). -/
def facadeBadBase : Facade := { sampleFacade with baseVerify := fun _ => ⟨1, ""⟩ }

/-- `sampleFacade` with a failing tip-resolution call (`git rev-parse
<branch>` exits nonzero). -/
def facadeTipFail : Facade := { sampleFacade with tipShaOut := fun _ => ⟨128, ""⟩ }

/-! ## Claims -/

/-- C1: a branch equal to the currently checked-out branch is classified
Skip with reason "current", for every configuration (all flags, every
protected and critical set) and every facade state; the guard is the first
test of the loop body, so no other guard is consulted. -/
theorem c1_current_branch_skip (cfg : Cfg) (f : Facade) (cur b : String)
    (h : b = cur) :
    classify cfg f cur b = .ok ⟨.Skip, "current"⟩ := by
  simp [classify, h]

theorem c1_current_branch_skip_w :
    classify sampleCfg sampleFacade "main" "main" = .ok ⟨.Skip, "current"⟩ :=
  c1_current_branch_skip sampleCfg sampleFacade "main" "main" rfl

/-- C2: a non-current branch whose lowercased name lies in the protected
set or in the critical set is classified Skip with reason "protected" or
"critical", and the result is the same for any two facades — no later
guard (upstream, issue-closure, ancestry, remote) is consulted. -/
theorem c2_protected_critical_skip (cfg : Cfg) (f g : Facade) (cur b : String)
    (hne : b ≠ cur)
    (hmem : lowerStr b ∈ cfg.protectedSet ∨ lowerStr b ∈ cfg.criticalSet) :
    (classify cfg f cur b = .ok ⟨.Skip, "protected"⟩ ∨
      classify cfg f cur b = .ok ⟨.Skip, "critical"⟩) ∧
    classify cfg f cur b = classify cfg g cur b := by
  unfold classify classifyRest
  by_cases hp : lowerStr b ∈ cfg.protectedSet
  · simp [hne, hp]
  · rcases hmem with hm | hm
    · exact absurd hm hp
    · simp [hne, hp, hm]

theorem c2_protected_critical_skip_w :
    (classify sampleCfg sampleFacade "main" "dev" = .ok ⟨.Skip, "protected"⟩ ∨
      classify sampleCfg sampleFacade "main" "dev" = .ok ⟨.Skip, "critical"⟩) ∧
    classify sampleCfg sampleFacade "main" "dev" =
      classify sampleCfg sampleFacadeAlt "main" "dev" :=
  c2_protected_critical_skip sampleCfg sampleFacade sampleFacadeAlt "main" "dev"
    (by decide) (Or.inl (by decide))

/-- C10: the current-branch guard compares the branch name to the
checked-out name verbatim — case-sensitively — so a branch that differs
from the current branch only in letter case is not intercepted by it and
is handed to the remaining guards (protected, critical, and onwards),
which for the protection sets compare the lowercased name. -/
theorem c10_current_guard_verbatim (cfg : Cfg) (f : Facade) (cur b : String)
    (hne : b ≠ cur) (hcase : lowerStr b = lowerStr cur) :
    classify cfg f cur b = classifyRest cfg f b := by
  simp [classify, hne]

theorem c10_current_guard_verbatim_w :
    classify sampleCfg sampleFacade "Main" "main" =
      classifyRest sampleCfg sampleFacade "main" :=
  c10_current_guard_verbatim sampleCfg sampleFacade "Main" "main"
    (by decide) (by decide)

/-- C3, counterexample: an empty protected-branches setting is a
configuration failure, but the process exits with status 1 (uncaught
module-level `RuntimeError`), not 2 as the claim states. -/
theorem c3_exit2_counterexample :
    parseBranchSet envEmptyProt.protectedEnv = [] ∧
    (programRun envEmptyProt sampleArgs sampleFacade).exitCode = 1 ∧
    ¬ (programRun envEmptyProt sampleArgs sampleFacade).exitCode = 2 := by
  decide

/-- An environment whose critical-branches setting resolves to the empty
set (only commas and blanks). -/
def envEmptyCrit : Env :=
  { protectedEnv := "main,master", criticalEnv := " , ", baseEnv := "dev" }

/-- `sampleFacade` with a repository path that exists but is not a git
repository (no `.git` directory), failing `ensure_git_repo`. -/
def facadeNotGitRepo : Facade := { sampleFacade with repoHasDotGit := false }

/-- `sampleFacade` with a failing branch-listing call
(`git for-each-ref` exits nonzero). -/
def facadeListFail : Facade := { sampleFacade with localBranchesOut := ⟨3, ""⟩ }

/-- C3, amended: a missing repository path, an invalid (non-git) repository
path, a failing current-branch or branch-listing call, and an unresolved
base reference exit with status 2; but an empty protected or empty
critical branch set raises an uncaught module-level `RuntimeError` and
exits with status 1, and a failure of the required tip-resolution call
raises an uncaught `RuntimeError` inside the loop and also exits with
status 1, not 2. -/
theorem c3_exit_codes_amended :
    (∀ env a f, parseBranchSet env.protectedEnv = [] →
      programRun env a f = ⟨1, []⟩) ∧
    (∀ env a f, parseBranchSet env.protectedEnv ≠ [] →
      parseBranchSet env.criticalEnv = [] → programRun env a f = ⟨1, []⟩) ∧
    (∀ env a f, parseBranchSet env.protectedEnv ≠ [] →
      parseBranchSet env.criticalEnv ≠ [] → stripStr env.baseEnv ≠ "" →
      f.repoExists = false → programRun env a f = ⟨2, []⟩) ∧
    (∀ env a f, parseBranchSet env.protectedEnv ≠ [] →
      parseBranchSet env.criticalEnv ≠ [] → stripStr env.baseEnv ≠ "" →
      f.repoExists = true → (f.repoIsDir && f.repoHasDotGit) = false →
      programRun env a f = ⟨2, []⟩) ∧
    (∀ env a f, parseBranchSet env.protectedEnv ≠ [] →
      parseBranchSet env.criticalEnv ≠ [] → stripStr env.baseEnv ≠ "" →
      f.repoExists = true → f.repoIsDir = true → f.repoHasDotGit = true →
      f.currentBranch.exitcode ≠ 0 → programRun env a f = ⟨2, []⟩) ∧
    (∀ env a f cur, parseBranchSet env.protectedEnv ≠ [] →
      parseBranchSet env.criticalEnv ≠ [] → stripStr env.baseEnv ≠ "" →
      f.repoExists = true → f.repoIsDir = true → f.repoHasDotGit = true →
      current_branch f = .ok cur → f.localBranchesOut.exitcode ≠ 0 →
      programRun env a f = ⟨2, []⟩) ∧
    (∀ env a f cur branches, parseBranchSet env.protectedEnv ≠ [] →
      parseBranchSet env.criticalEnv ≠ [] → stripStr env.baseEnv ≠ "" →
      f.repoExists = true → f.repoIsDir = true → f.repoHasDotGit = true →
      current_branch f = .ok cur → local_branches f = .ok branches →
      runNoCheck (f.baseVerify (a.base.getD (stripStr env.baseEnv))) = "" →
      programRun env a f = ⟨2, []⟩) ∧
    programRun sampleEnv sampleArgs facadeTipFail = ⟨1, ["[SKIP] main (current)"]⟩ := by
  refine ⟨?_, ?_, ?_, ?_, ?_, ?_, ?_, ?_⟩
  · intro env a f h
    simp [programRun, h]
  · intro env a f h1 h2
    simp [programRun, h1, h2]
  · intro env a f h1 h2 h3 h4
    simp [programRun, h1, h2, h3, h4]
  · intro env a f h1 h2 h3 h4 h5
    simp [programRun, h1, h2, h3, h4, h5]
  · intro env a f h1 h2 h3 h4 h5 h6 h7
    simp [programRun, h1, h2, h3, h4, h5, h6, current_branch, run, h7]
  · intro env a f cur h1 h2 h3 h4 h5 h6 hcur h7
    simp [programRun, h1, h2, h3, h4, h5, h6, hcur, local_branches, run, h7]
  · intro env a f cur branches h1 h2 h3 h4 h5 h6 hcur hbr hbv
    simp [programRun, h1, h2, h3, h4, h5, h6, hcur, hbr, hbv]
  · decide

theorem c3_exit_codes_amended_w :
    programRun envEmptyProt sampleArgs sampleFacade = ⟨1, []⟩ ∧
    programRun envEmptyCrit sampleArgs sampleFacade = ⟨1, []⟩ ∧
    programRun sampleEnv sampleArgs facadeNoRepo = ⟨2, []⟩ ∧
    programRun sampleEnv sampleArgs facadeNotGitRepo = ⟨2, []⟩ ∧
    programRun sampleEnv sampleArgs facadeCurFail = ⟨2, []⟩ ∧
    programRun sampleEnv sampleArgs facadeListFail = ⟨2, []⟩ ∧
    programRun sampleEnv sampleArgs facadeBadBase = ⟨2, []⟩ ∧
    programRun sampleEnv sampleArgs facadeTipFail = ⟨1, ["[SKIP] main (current)"]⟩ :=
  ⟨c3_exit_codes_amended.1 envEmptyProt sampleArgs sampleFacade (by decide),
   c3_exit_codes_amended.2.1 envEmptyCrit sampleArgs sampleFacade
     (by decide) (by decide),
   c3_exit_codes_amended.2.2.1 sampleEnv sampleArgs facadeNoRepo
     (by decide) (by decide) (by decide) rfl,
   c3_exit_codes_amended.2.2.2.1 sampleEnv sampleArgs facadeNotGitRepo
     (by decide) (by decide) (by decide) rfl rfl,
   c3_exit_codes_amended.2.2.2.2.1 sampleEnv sampleArgs facadeCurFail
     (by decide) (by decide) (by decide) rfl rfl rfl (by decide),
   c3_exit_codes_amended.2.2.2.2.2.1 sampleEnv sampleArgs facadeListFail "main"
     (by decide) (by decide) (by decide) rfl rfl rfl (by decide) (by decide),
   c3_exit_codes_amended.2.2.2.2.2.2.1 sampleEnv sampleArgs facadeBadBase
     "main" ["main", "feature-x"]
     (by decide) (by decide) (by decide) rfl rfl rfl (by decide) (by decide) (by decide),
   c3_exit_codes_amended.2.2.2.2.2.2.2⟩

/-- C4, counterexample: with the default critical setting and the
user-supplied addition "hotfix", the critical set used by the run does not
contain "hotfix" — the addition lands in the protected set instead
(line 171 unions `--protect` values into `protected`; line 172 leaves
`critical` untouched). -/
theorem c4_critical_union_counterexample :
    "hotfix" ∉ criticalForRun "master,dev" ∧
    "hotfix" ∈
      protectedForRun "main,master,develop,dev,release,staging,production" ["hotfix"] := by
  decide

/-- C4, amended: the protected set used by the pipeline is the union of the
environment-configured protected set and the user-supplied additions,
while the critical set is exactly the environment-configured critical set;
hence a non-current branch whose lowercase name is among the user-supplied
additions is classified Skip with reason "protected". -/
theorem c4_user_additions_amended (envP envC : String) (ps : List String)
    (remote baseRef : String) (dr fo cu cr ci : Bool) (f : Facade) (cur b : String)
    (hne : b ≠ cur) (hmem : lowerStr b ∈ parseProtectArgs ps) :
    classify
      ⟨remote, baseRef, dr, fo, cu, cr, ci,
        protectedForRun envP ps, criticalForRun envC⟩ f cur b
      = .ok ⟨.Skip, "protected"⟩ ∧
    criticalForRun envC = parseBranchSet envC := by
  refine ⟨?_, rfl⟩
  have hp : lowerStr b ∈ protectedForRun envP ps :=
    List.mem_append_right _ hmem
  simp [classify, hne, classifyRest, hp]

theorem c4_user_additions_amended_w :
    classify
      ⟨"origin", "dev", false, false, false, false, false,
        protectedForRun "main,master,develop,dev,release,staging,production" [" HotFix "],
        criticalForRun "master,dev"⟩ sampleFacade "main" "hotfix"
      = .ok ⟨.Skip, "protected"⟩ ∧
    criticalForRun "master,dev" = parseBranchSet "master,dev" :=
  c4_user_additions_amended
    "main,master,develop,dev,release,staging,production" "master,dev" [" HotFix "]
    "origin" "dev" false false false false false sampleFacade "main" "hotfix"
    (by decide) (by decide)

/-- `sampleCfg` with the issue-closure check enabled. -/
def cfgIssue : Cfg := { sampleCfg with checkIssueClosure := true }

/-- C5: with the issue-closure check enabled, a branch that passes the
current/protected/critical/upstream guards is classified Skip when its
name has no "digits, then `-` or `_`, then anything" prefix, and Keep when
it has the prefix but no commit message reachable from the base matches
the closure pattern
`(closes|closed|fixes|fixed|resolves|resolved)\s+#?<id>\b`
case-insensitively. -/
theorem c5_issue_closure_guard (cfg : Cfg) (f : Facade) (cur b : String)
    (hic : cfg.checkIssueClosure = true)
    (hne : b ≠ cur)
    (hp : lowerStr b ∉ cfg.protectedSet)
    (hc : lowerStr b ∉ cfg.criticalSet)
    (hup : cfg.checkUpstreamMissing = false ∨ upstream_ok f cfg.remote b = true) :
    (issue_id_from_branch b = none →
      classify cfg f cur b = .ok ⟨.Skip, "no issue id prefix for closure check"⟩) ∧
    (∀ i, issue_id_from_branch b = some i →
      base_has_issue_closure f cfg.baseRef i = false →
      classify cfg f cur b =
        .ok ⟨.Keep, "no issue-closure marker on " ++ cfg.baseRef ++ " for #" ++ i⟩) := by
  have hustep : (cfg.checkUpstreamMissing && !(upstream_ok f cfg.remote b)) = false := by
    rcases hup with h | h <;> simp [h]
  constructor
  · intro h0
    simp [classify, hne, classifyRest, hp, hc, hustep, issueGuard, hic, h0]
  · intro i hi hb
    simp [classify, hne, classifyRest, hp, hc, hustep, issueGuard, hic, hi, hb]

theorem c5_issue_closure_guard_w :
    classify cfgIssue sampleFacade "main" "feature-x"
      = .ok ⟨.Skip, "no issue id prefix for closure check"⟩ ∧
    classify cfgIssue sampleFacade "main" "7-x"
      = .ok ⟨.Keep, "no issue-closure marker on " ++ "dev" ++ " for #" ++ "7"⟩ :=
  ⟨(c5_issue_closure_guard cfgIssue sampleFacade "main" "feature-x"
      rfl (by decide) (by decide) (by decide) (Or.inl rfl)).1 (by decide),
   (c5_issue_closure_guard cfgIssue sampleFacade "main" "7-x"
      rfl (by decide) (by decide) (by decide) (Or.inl rfl)).2 "7" (by decide) (by decide)⟩

/-- C6: a branch on which the ancestry oracle is consulted (it passed every
earlier guard) whose tip is reported not contained in the base is
classified Keep — and the executor emits a single `[KEEP]` line and never
invokes deletion, so the branch is not deleted. -/
theorem c6_ancestry_keep (cfg : Cfg) (f : Facade) (cur b tip : String)
    (hne : b ≠ cur)
    (hp : lowerStr b ∉ cfg.protectedSet)
    (hc : lowerStr b ∉ cfg.criticalSet)
    (hup : cfg.checkUpstreamMissing = false ∨ upstream_ok f cfg.remote b = true)
    (hiss : issueGuard cfg f b = none)
    (htip : tip_sha f b = .ok tip)
    (hanc : commit_in_base f tip cfg.baseRef = false) :
    classify cfg f cur b =
      .ok ⟨.Keep, "tip " ++ takeStr tip 8 ++ " NOT in " ++ cfg.baseRef⟩ ∧
    stepBranch cfg f cur b =
      ⟨["[KEEP] " ++ b ++ " (" ++
          ("tip " ++ takeStr tip 8 ++ " NOT in " ++ cfg.baseRef) ++ ")"], false⟩ := by
  have hustep : (cfg.checkUpstreamMissing && !(upstream_ok f cfg.remote b)) = false := by
    rcases hup with h | h <;> simp [h]
  have hcl : classify cfg f cur b =
      .ok ⟨.Keep, "tip " ++ takeStr tip 8 ++ " NOT in " ++ cfg.baseRef⟩ := by
    simp [classify, hne, classifyRest, hp, hc, hustep, hiss, tailGuards, htip, hanc]
  exact ⟨hcl, by simp [stepBranch, hcl]⟩

/-- `sampleFacade` with a tip that is not contained in the base. -/
def facadeNotInBase : Facade :=
  { sampleFacade with
    tipShaOut := fun _ => ⟨0, "cafe0123aaaa"⟩,
    mergeBaseRc := fun _ _ => 1 }

theorem c6_ancestry_keep_w :
    classify sampleCfg facadeNotInBase "main" "feature-y" =
      .ok ⟨.Keep, "tip " ++ takeStr "cafe0123aaaa" 8 ++ " NOT in " ++ "dev"⟩ ∧
    stepBranch sampleCfg facadeNotInBase "main" "feature-y" =
      ⟨["[KEEP] " ++ "feature-y" ++ " (" ++
          ("tip " ++ takeStr "cafe0123aaaa" 8 ++ " NOT in " ++ "dev") ++ ")"], false⟩ :=
  c6_ancestry_keep sampleCfg facadeNotInBase "main" "feature-y" "cafe0123aaaa"
    (by decide) (by decide) (by decide) (Or.inl rfl) (by decide) (by decide) (by decide)

/-- C7: with the remote-missing check enabled, a failed remote-presence
lookup leaves empty captured output, so `remote_branch_exists` returns
false exactly as for an absent branch (the exit code `rc` is arbitrary —
failure and absence are indistinguishable); a branch reaching that guard
with its tip contained in base is therefore classified Delete, and the
classification is an ordinary result, not an aborting error. -/
theorem c7_remote_failure_deletes (cfg : Cfg) (f : Facade) (cur b tip : String)
    (hrm : cfg.checkRemoteMissing = true)
    (hne : b ≠ cur)
    (hp : lowerStr b ∉ cfg.protectedSet)
    (hc : lowerStr b ∉ cfg.criticalSet)
    (hup : cfg.checkUpstreamMissing = false ∨ upstream_ok f cfg.remote b = true)
    (hiss : issueGuard cfg f b = none)
    (htip : tip_sha f b = .ok tip)
    (hanc : commit_in_base f tip cfg.baseRef = true)
    (hls : (f.lsRemoteOut cfg.remote b).stdout = "") :
    remote_branch_exists f cfg.remote b = false ∧
    classify cfg f cur b =
      .ok ⟨.Delete, "tip " ++ takeStr tip 8 ++ " is in " ++ cfg.baseRef⟩ := by
  have hustep : (cfg.checkUpstreamMissing && !(upstream_ok f cfg.remote b)) = false := by
    rcases hup with h | h <;> simp [h]
  have hre : remote_branch_exists f cfg.remote b = false := by
    simp [remote_branch_exists, runNoCheck, hls, stripStr]
  refine ⟨hre, ?_⟩
  simp [classify, hne, classifyRest, hp, hc, hustep, hiss, tailGuards, htip, hanc, hre]

/-- `sampleCfg` with the remote-missing check enabled. -/
def cfgRemote : Cfg := { sampleCfg with checkRemoteMissing := true }

theorem c7_remote_failure_deletes_w :
    remote_branch_exists sampleFacade "origin" "feature-x" = false ∧
    classify cfgRemote sampleFacade "main" "feature-x" =
      .ok ⟨.Delete, "tip " ++ takeStr "deadbeef12345678" 8 ++ " is in " ++ "dev"⟩ :=
  c7_remote_failure_deletes cfgRemote sampleFacade "main" "feature-x" "deadbeef12345678"
    rfl (by decide) (by decide) (by decide) (Or.inl rfl) (by decide) (by decide)
    (by decide) rfl

/-- The default arguments with dry-run enabled. -/
def argsDry : Args := { sampleArgs with dryRun := true }

/-- C8, counterexample: in dry-run mode a deletion prints two lines — the
`[DEL ]` line (line 230) and then the `[DRY]` line from `delete_branch`
(line 97) — so a run over two branches (one skipped, one deleted) prints
three lines, not one line per branch. -/
theorem c8_one_line_counterexample :
    local_branches sampleFacade = .ok ["main", "feature-x"] ∧
    programRun sampleEnv argsDry sampleFacade =
      ⟨0, ["[SKIP] main (current)",
           "[DEL ] feature-x (tip deadbeef is in dev)",
           "[DRY] git branch -d feature-x"]⟩ ∧
    ¬ (programRun sampleEnv argsDry sampleFacade).out.length = 2 := by
  decide

/-- C8, amended: each Skip or Keep classification prints exactly one line
(`[SKIP]`/`[KEEP]`); a deletion in dry-run mode prints exactly two lines —
the `[DEL ]` line followed by the `[DRY]` line describing the suppressed
command — and a non-dry-run deletion prints exactly one `[DEL ]` line. -/
theorem c8_output_lines_amended (cfg : Cfg) (f : Facade) (cur b : String)
    (c : Classif) (h : classify cfg f cur b = .ok c) :
    (c.action ≠ .Delete → (stepBranch cfg f cur b).lines.length = 1) ∧
    (c.action = .Delete → cfg.dryRun = true →
      (stepBranch cfg f cur b).lines =
        ["[DEL ] " ++ b ++ " (" ++ c.reason ++ ")",
         "[DRY] git branch " ++ (if cfg.force then "-D" else "-d") ++ " " ++ b]) ∧
    (c.action = .Delete → cfg.dryRun = false →
      (stepBranch cfg f cur b).lines.length = 1) := by
  refine ⟨?_, ?_, ?_⟩
  · intro hd
    cases hact : c.action
    · simp [stepBranch, h, hact]
    · simp [stepBranch, h, hact]
    · exact absurd hact hd
  · intro hd hdry
    simp [stepBranch, h, hd, delete_branch, hdry]
  · intro hd hdry
    by_cases hrc : f.deleteRc b cfg.force == 0 <;>
      simp [stepBranch, h, hd, delete_branch, hdry, hrc]

/-- `sampleCfg` with dry-run enabled. -/
def argsDryCfg : Cfg := { sampleCfg with dryRun := true }

theorem c8_output_lines_amended_w :
    (stepBranch sampleCfg sampleFacade "main" "main").lines.length = 1 ∧
    (stepBranch argsDryCfg sampleFacade "main" "feature-x").lines =
      ["[DEL ] " ++ "feature-x" ++ " (" ++ "tip deadbeef is in dev" ++ ")",
       "[DRY] git branch " ++ (if argsDryCfg.force then "-D" else "-d") ++ " " ++ "feature-x"] ∧
    (stepBranch sampleCfg sampleFacade "main" "feature-x").lines.length = 1 :=
  ⟨(c8_output_lines_amended sampleCfg sampleFacade "main" "main"
      ⟨.Skip, "current"⟩ (by decide)).1 (by decide),
   (c8_output_lines_amended argsDryCfg sampleFacade "main" "feature-x"
      ⟨.Delete, "tip deadbeef is in dev"⟩ (by decide)).2.1 rfl rfl,
   (c8_output_lines_amended sampleCfg sampleFacade "main" "feature-x"
      ⟨.Delete, "tip deadbeef is in dev"⟩ (by decide)).2.2 rfl rfl⟩

/-- C9: classification is deterministic — two runs over the same
configuration and environment whose facades agree on every query result
(the repository state is unchanged), in dry-run mode, produce identical
output, exit code included. -/
theorem c9_dry_run_deterministic (env : Env) (a : Args) (f g : Facade)
    (hdry : a.dryRun = true)
    (h1 : f.repoExists = g.repoExists)
    (h2 : f.repoIsDir = g.repoIsDir)
    (h3 : f.repoHasDotGit = g.repoHasDotGit)
    (h4 : f.currentBranch = g.currentBranch)
    (h5 : f.localBranchesOut = g.localBranchesOut)
    (h6 : ∀ x, f.baseVerify x = g.baseVerify x)
    (h7 : ∀ x, f.upstreamOut x = g.upstreamOut x)
    (h8 : ∀ x, f.tipShaOut x = g.tipShaOut x)
    (h9 : ∀ x y, f.mergeBaseRc x y = g.mergeBaseRc x y)
    (h10 : ∀ x, f.logMessages x = g.logMessages x)
    (h11 : ∀ x y, f.lsRemoteOut x y = g.lsRemoteOut x y)
    (h12 : ∀ x y, f.deleteRc x y = g.deleteRc x y) :
    programRun env a f = programRun env a g := by
  have hfg : f = g := by
    cases f
    cases g
    simp only [Facade.mk.injEq]
    exact ⟨h1, h2, h3, h4, h5, funext h6, funext h7, funext h8,
      funext fun x => funext fun y => h9 x y, funext h10,
      funext fun x => funext fun y => h11 x y,
      funext fun x => funext fun y => h12 x y⟩
  rw [hfg]

/-- A facade written differently from `sampleFacade` but agreeing with it
on every query result. -/
def sampleFacadeCopy : Facade :=
  { sampleFacade with
    baseVerify := fun s => ⟨0, "0123abcd"⟩,
    lsRemoteOut := fun r b => ⟨1, ""⟩ }

theorem c9_dry_run_deterministic_w :
    programRun sampleEnv argsDry sampleFacade =
      programRun sampleEnv argsDry sampleFacadeCopy :=
  c9_dry_run_deterministic sampleEnv argsDry sampleFacade sampleFacadeCopy
    rfl rfl rfl rfl rfl rfl (fun x => rfl) (fun x => rfl) (fun x => rfl)
    (fun x y => rfl) (fun x => rfl) (fun x y => rfl) (fun x y => rfl)

end BranchCleaner
